import Mathlib

/-!
Verification development for the pggate document-operation execution core
(src/yb/yql/pggate/pg_doc_op.cc).

The C++ classes PgDocOp / PgDocReadOp / PgDocWriteOp are shallowly embedded:
member state becomes a Lean structure, each member function becomes a pure
function from state (plus the outcome the storage session would report) to
state.  Machine integers are modelled as unbounded Int, the one double flag
(ysql_backward_prefetch_scale_factor) as Rat with explicit truncation toward
zero at the double-to-int conversion.  Protobuf messages become inductive
types; repeated fields become lists.
-/

namespace PgDocOpModel

/-- Opaque numeric value of YBPgErrorCode::YB_PG_INTERNAL_ERROR, the default
pg error code used by PgDocOp::HandleResponseStatus when the response carries
none. -/
def YB_PG_INTERNAL_ERROR : Nat := 0

/-- Opaque numeric value of TransactionErrorCode::kNone, the default
transaction error code used when the response carries none. -/
def TransactionErrorCode_kNone : Nat := 0

/-- Model of yb::Status as used in pg_doc_op.cc: OK, or one of the error
kinds the file constructs (IllegalState, AlreadyPresent, QLError), or some
other error produced by a collaborator (session apply/flush).  The error
kinds built by HandleResponseStatus carry the message and the attached
pg-error and transaction-error codes. -/
inductive Status where
  | ok : Status
  | illegalState (msg : String) : Status
  | alreadyPresent (msg : String) (pgErr : Nat) (txnErr : Nat) : Status
  | qlError (msg : String) (pgErr : Nat) (txnErr : Nat) : Status
  | otherError (msg : String) : Status
deriving DecidableEq, Repr

/-- Status.ok predicate, mirroring Status::ok(). -/
def Status.isOk : Status → Bool
  | .ok => true
  | _ => false

/-- Model of Status::CloneAndAddErrorCode with a TransactionError argument:
replaces the transaction-error attribute on the statuses built by
HandleResponseStatus, leaves other statuses alone. -/
def Status.cloneAndAddTxnError : Status → Nat → Status
  | .alreadyPresent m p _, t => .alreadyPresent m p t
  | .qlError m p _, t => .qlError m p t
  | s, _ => s

/-- Message carried by a status. -/
def Status.message : Status → String
  | .ok => ""
  | .illegalState m => m
  | .alreadyPresent m _ _ => m
  | .qlError m _ _ => m
  | .otherError m => m

/-- Attached pg-error code, when present. -/
def Status.pgErrAttr : Status → Option Nat
  | .alreadyPresent _ p _ => some p
  | .qlError _ p _ => some p
  | _ => none

/-- Attached transaction-error code, when present. -/
def Status.txnErrAttr : Status → Option Nat
  | .alreadyPresent _ _ t => some t
  | .qlError _ _ t => some t
  | _ => none

/-- Whether the status is of kind AlreadyPresent. -/
def Status.isAlreadyPresent : Status → Bool
  | .alreadyPresent _ _ _ => true
  | _ => false

/-- Whether the status is of kind QLError (the query-layer error). -/
def Status.isQLError : Status → Bool
  | .qlError _ _ _ => true
  | _ => false

/-- PgsqlResponsePB::RequestStatus enumeration. -/
inductive PgsqlStatus where
  | ok
  | schemaVersionMismatch
  | runtimeError
  | usageError
  | restartRequiredError
  | duplicateKeyError
deriving DecidableEq, Repr

/-- Model of PgsqlResponsePB: the per-sub-request response message.  Optional
proto fields are Options; rows data is carried on the op (see YBPgsqlReadOp). -/
structure PgsqlResponsePB where
  status : PgsqlStatus
  error_message : String
  pg_error_code : Option Nat
  txn_error_code : Option Nat
  paging_state : Option Nat
  rows_affected_count : Nat
deriving DecidableEq, Repr

/-- YBPgsqlOp::succeeded(): the response carries PGSQL_STATUS_OK. -/
def respSucceeded (r : PgsqlResponsePB) : Bool :=
  r.status = PgsqlStatus.ok

/-- Model of PgDocOp::HandleResponseStatus restricted to its effect on
exec_status_: when the op succeeded exec_status_ is left alone; otherwise a
status of kind AlreadyPresent (duplicate-key) or QLError is built from the
response message and the defaulted pg-error code, and the defaulted
transaction-error code is then attached via CloneAndAddErrorCode. -/
def HandleResponseStatus (resp : PgsqlResponsePB) (exec_status : Status) : Status :=
  if respSucceeded resp then exec_status
  else
    let pg_error_code :=
      match resp.pg_error_code with
      | some c => c
      | none => YB_PG_INTERNAL_ERROR
    let txn_error_code :=
      match resp.txn_error_code with
      | some c => c
      | none => TransactionErrorCode_kNone
    let s :=
      if resp.status = PgsqlStatus.duplicateKeyError then
        Status.alreadyPresent resp.error_message pg_error_code TransactionErrorCode_kNone
      else
        Status.qlError resp.error_message pg_error_code TransactionErrorCode_kNone
    s.cloneAndAddTxnError txn_error_code

/-- The gflags read by pg_doc_op.cc.  The backward prefetch scale factor is a
double flag, modelled as a rational. -/
structure Flags where
  ysql_prefetch_limit : Int
  ysql_backward_prefetch_scale_factor : Rat
  ysql_request_limit : Int
deriving DecidableEq, Repr

/-- PgExecParameters: the caller-supplied execution parameter block. -/
structure PgExecParameters where
  limit_count : Int
  limit_offset : Int
  limit_use_default : Bool
  rowmark : Int
deriving DecidableEq, Repr

/-- Model of the PgDocOp constructor body: starting from the
default-initialized parameter block prev, it overwrites limit_count with
FLAGS_ysql_prefetch_limit, limit_offset with 0 and limit_use_default with
true. -/
def PgDocOp_ctor_exec_params (flags : Flags) (prev : PgExecParameters) : PgExecParameters :=
  { prev with
    limit_count := flags.ysql_prefetch_limit
    limit_offset := 0
    limit_use_default := true }

/-- Truncation toward zero of a rational, modelling the C++ conversion of a
double back to an int in SetRequestPrefetchLimit. -/
def ratTruncToInt (q : Rat) : Int :=
  if 0 ≤ q then q.floor else q.ceil

/-- The predicted prefetch limit of PgDocReadOp::SetRequestPrefetchLimit:
the prefetch flag, scaled down for a backward scan, then clamped to be at
least 1. -/
def predictedPrefetchLimit (flags : Flags) (is_forward_scan : Bool) : Int :=
  let predicted_limit : Int := flags.ysql_prefetch_limit
  let predicted_limit : Int :=
    if !is_forward_scan then
      ratTruncToInt ((predicted_limit : Rat) * flags.ysql_backward_prefetch_scale_factor)
    else predicted_limit
  if predicted_limit < 1 then 1 else predicted_limit

/-- The limit PgDocReadOp::SetRequestPrefetchLimit stores into the template
read request: the statement limit (count + offset) when it is in force and
smaller than the predicted limit, the predicted limit otherwise. -/
def computePrefetchLimit (flags : Flags) (p : PgExecParameters) (is_forward_scan : Bool) : Int :=
  let predicted_limit := predictedPrefetchLimit flags is_forward_scan
  let limit_count := p.limit_count + p.limit_offset
  if p.limit_use_default || limit_count > predicted_limit then predicted_limit
  else limit_count

/-- Model of a PostgreSQL expression protobuf (PgsqlExpressionPB) as far as
pg_doc_op.cc inspects it: a partition column value is either a plain operand
or a condition node whose operand list encodes a column IN (...) predicate. -/
inductive PgExpr where
  | value (v : Int) : PgExpr
  | condition (operands : List PgExpr) : PgExpr
deriving Repr

/-- Default expression, standing for the uninitialized protobuf slot; never
reached under the hypotheses of the theorems below. -/
def exprDflt : PgExpr := PgExpr.value 0

/-- List lookup with a default, mirroring indexed access into a repeated
protobuf field. -/
def nthD {α : Type} (l : List α) (n : Nat) (d : α) : α :=
  match l.get? n with
  | some a => a
  | none => d

/-- Model of PgsqlReadRequestPB restricted to the fields pg_doc_op.cc
mutates or reads: partition column values, limit, row mark, scan direction,
paging state, catalog version, return_paging_state, and the nested
index_request chain. -/
inductive ReadReq where
  | mk (partition_column_values : List PgExpr)
       (limit : Int)
       (row_mark_type : Option Int)
       (is_forward_scan : Bool)
       (paging_state : Option Nat)
       (ysql_catalog_version : Option Nat)
       (return_paging_state : Bool)
       (index_request : Option ReadReq)

/-- Partition column values of a read request. -/
def ReadReq.partition_column_values : ReadReq → List PgExpr
  | .mk p _ _ _ _ _ _ _ => p

/-- Limit field of a read request. -/
def ReadReq.limit : ReadReq → Int
  | .mk _ l _ _ _ _ _ _ => l

/-- Row mark field of a read request. -/
def ReadReq.row_mark_type : ReadReq → Option Int
  | .mk _ _ r _ _ _ _ _ => r

/-- Scan direction of a read request. -/
def ReadReq.is_forward_scan : ReadReq → Bool
  | .mk _ _ _ f _ _ _ _ => f

/-- Paging state field of a read request. -/
def ReadReq.paging_state : ReadReq → Option Nat
  | .mk _ _ _ _ p _ _ _ => p

/-- Catalog version field of a read request. -/
def ReadReq.ysql_catalog_version : ReadReq → Option Nat
  | .mk _ _ _ _ _ v _ _ => v

/-- Return-paging-state field of a read request. -/
def ReadReq.return_paging_state : ReadReq → Bool
  | .mk _ _ _ _ _ _ r _ => r

/-- Nested index request of a read request. -/
def ReadReq.index_request : ReadReq → Option ReadReq
  | .mk _ _ _ _ _ _ _ i => i

/-- Replace the partition column values (clear_partition_column_values
followed by adding the new slots). -/
def ReadReq.setPCV : ReadReq → List PgExpr → ReadReq
  | .mk _ l r f p v rp i, pcv => .mk pcv l r f p v rp i

/-- Set the limit field (req->set_limit). -/
def ReadReq.setLimit : ReadReq → Int → ReadReq
  | .mk pcv _ r f p v rp i, l => .mk pcv l r f p v rp i

/-- Set or clear the row mark field. -/
def ReadReq.setRowMarkField : ReadReq → Option Int → ReadReq
  | .mk pcv l _ f p v rp i, r => .mk pcv l r f p v rp i

/-- Set the return_paging_state field. -/
def ReadReq.setReturnPagingState : ReadReq → Bool → ReadReq
  | .mk pcv l r f p v _ i, rp => .mk pcv l r f p v rp i

/-- Clear the catalog version of the outermost request
(req->clear_ysql_catalog_version). -/
def ReadReq.clearCatalogVersion : ReadReq → ReadReq
  | .mk pcv l r f p _ rp i => .mk pcv l r f p none rp i

/-- Model of the paging-state installation loop of PgDocReadOp::ReceiveResponse:
walk the index_request chain to the innermost request and store the paging
state there. -/
def ReadReq.setPagingStateInnermost : ReadReq → Nat → ReadReq
  | .mk pcv l r f p v rp (some inner), ps =>
      .mk pcv l r f p v rp (some (inner.setPagingStateInnermost ps))
  | .mk pcv l r f _ v rp none, ps => .mk pcv l r f (some ps) v rp none

/-- The innermost request of an index_request chain. -/
def ReadReq.innermost : ReadReq → ReadReq
  | .mk _ _ _ _ _ _ _ (some inner) => inner.innermost
  | .mk pcv l r f p v rp none => .mk pcv l r f p v rp none

/-- Model of client::YBPgsqlReadOp: the request it will send, the response
the session stored into it, and the rows data blob of that response. -/
structure YBPgsqlReadOp where
  request : ReadReq
  response : PgsqlResponsePB
  rows_data : String

/-- Response value of a freshly created op (nothing received yet). -/
def emptyResponse : PgsqlResponsePB :=
  { status := PgsqlStatus.ok
    error_message := ""
    pg_error_code := none
    txn_error_code := none
    paging_state := none
    rows_affected_count := 0 }

/-- State of a PgDocReadOp: the PgDocOp base members followed by the
read-specific members.  num_hash_key_columns stands for the
table_desc_->num_hash_key_columns() the op was constructed with. -/
structure ReadOpState where
  is_canceled : Bool
  waiting_for_response : Bool
  end_of_data : Bool
  has_cached_data : Bool
  result_cache : List String
  exec_status : Status
  exec_params : PgExecParameters
  num_hash_key_columns : Nat
  template_req : ReadReq
  read_ops : List YBPgsqlReadOp
  partition_exprs : List (List PgExpr)
  next_op_idx : Nat
  can_produce_more_ops : Bool

/-- Product of the partition-expression list lengths, as accumulated by the
total_op_count loop of InitializeNextOps. -/
def radixProd (exprs : List (List PgExpr)) : Nat :=
  (exprs.map List.length).prod

/-- Product of the partition-expression list lengths from column c on. -/
def suffixProd (exprs : List (List PgExpr)) (c : Nat) : Nat :=
  radixProd (exprs.drop c)

/-- Model of the permutation-filling loop of InitializeNextOps: iterate the
hash columns from the last one to the first, selecting operand pos mod len
and dividing pos by len after each column.  The argument list holds the
columns in reversed order (last hash column first); the produced value list
is in column order. -/
def fillPermRev : List (List PgExpr) → Nat → List PgExpr
  | [], _ => []
  | col :: restRev, pos =>
      fillPermRev restRev (pos / col.length) ++ [nthD col (pos % col.length) exprDflt]

/-- The partition column values placed into the clone emitted at permutation
index pos: the mixed-radix decomposition of pos with the last hash column
least significant. -/
def permutationAt (exprs : List (List PgExpr)) (pos : Nat) : List PgExpr :=
  fillPermRev exprs.reverse pos

/-- The operand list a single partition column value contributes to
partition_exprs_: the operand list of the second operand of its condition
when it is a condition node (column IN (...)), the singleton of the slot
itself otherwise. -/
def exprListOf (colExpr : PgExpr) : List PgExpr :=
  match colExpr with
  | .condition ops =>
      match nthD ops 1 exprDflt with
      | .condition inner => inner
      | _ => []
  | e => [e]

/-- The lazy construction of partition_exprs_ on the first call of
InitializeNextOps: one operand list per hash column, drawn from the template
partition column values. -/
def buildPartitionExprs (numHash : Nat) (pcv : List PgExpr) : List (List PgExpr) :=
  (List.range numHash).map (fun c => exprListOf (nthD pcv c exprDflt))

/-- The partition-expression lists InitializeNextOps will use: the already
constructed partition_exprs_, or the lazily built ones when that member is
still empty. -/
def effectivePartitionExprs (st : ReadOpState) : List (List PgExpr) :=
  if st.partition_exprs.isEmpty then
    buildPartitionExprs st.num_hash_key_columns st.template_req.partition_column_values
  else st.partition_exprs

/-- A clone of the template with its partition column values replaced by the
permutation at index idx (DeepCopy, clear_partition_column_values, add one
slot per hash column, CopyFrom of each selected operand). -/
def mkPermOp (tmpl : ReadReq) (exprs : List (List PgExpr)) (idx : Nat) : YBPgsqlReadOp :=
  { request := tmpl.setPCV (permutationAt exprs idx)
    response := emptyResponse
    rows_data := "" }

/-- The while loop of InitializeNextOps: emit clones for successive
permutation indices while fuel (num_ops) remains and the index has not
reached total.  Returns the emitted ops and the final next_op_idx_. -/
def genOps (tmpl : ReadReq) (exprs : List (List PgExpr)) (total : Nat) :
    Nat → Nat → List YBPgsqlReadOp × Nat
  | 0, idx => ([], idx)
  | n + 1, idx =>
      if idx < total then
        let op := mkPermOp tmpl exprs idx
        let rest := genOps tmpl exprs total n (idx + 1)
        (op :: rest.1, rest.2)
      else ([], idx)

/-- Model of PgDocReadOp::InitializeNextOps.  With no partition column
values on the template a single clone of the template is emitted and the op
can produce no more; otherwise partition_exprs_ is built lazily, and clones
for the next permutation indices are emitted up to num_ops, exhausting
can_produce_more_ops_ when next_op_idx_ reaches the permutation count. -/
def InitializeNextOps (st : ReadOpState) (num_ops : Int) : ReadOpState :=
  if num_ops ≤ 0 then st
  else if st.template_req.partition_column_values.length = 0 then
    { st with
      read_ops := st.read_ops ++
        [{ request := st.template_req, response := emptyResponse, rows_data := "" }]
      can_produce_more_ops := false }
  else
    let pexprs := effectivePartitionExprs st
    let total := radixProd pexprs
    let gen := genOps st.template_req pexprs total num_ops.toNat st.next_op_idx
    { st with
      partition_exprs := pexprs
      read_ops := st.read_ops ++ gen.1
      next_op_idx := gen.2
      can_produce_more_ops :=
        if gen.2 = total then false else st.can_produce_more_ops }

/-- Summary of what the storage session does for one dispatch: the first
failure of PgApplyAsync over the ops (OK when all applies succeed), whether
any apply reported the op as buffered, and the status PgFlushAsync returns. -/
structure SessionOutcome where
  applyStatus : Status
  anyBuffered : Bool
  flushStatus : Status

/-- State update of PgDocReadOp::SetRequestPrefetchLimit: store the computed
limit into the template request. -/
def SetRequestPrefetchLimit (flags : Flags) (st : ReadOpState) : ReadOpState :=
  { st with
    template_req := st.template_req.setLimit
      (computePrefetchLimit flags st.exec_params st.template_req.is_forward_scan) }

/-- State update of PgDocReadOp::SetRowMark: clear the row mark when the
parameter is negative, store it otherwise. -/
def SetRowMark (st : ReadOpState) : ReadOpState :=
  { st with
    template_req :=
      if st.exec_params.rowmark < 0 then st.template_req.setRowMarkField none
      else st.template_req.setRowMarkField (some st.exec_params.rowmark) }

/-- Model of PgDocReadOp::SendRequestUnlocked.  The template is sized and
row-marked, more clones are generated while the op can produce them (up to
the request-limit flag minus the live list size), then the ops are applied
and flushed through the session; the in-flight flag is set exactly when the
flush was scheduled successfully.  The session behaviour is summarized by
the outcome argument. -/
def SendRequestUnlocked (flags : Flags) (o : SessionOutcome) (st : ReadOpState) :
    Status × ReadOpState :=
  let st := SetRequestPrefetchLimit flags st
  let st := SetRowMark st
  let st :=
    if st.can_produce_more_ops then
      InitializeNextOps st (flags.ysql_request_limit - st.read_ops.length)
    else st
  if !o.applyStatus.isOk then (o.applyStatus, st)
  else if o.anyBuffered then
    (Status.illegalState "YSQL read operation should not be buffered", st)
  else if !o.flushStatus.isOk then (o.flushStatus, st)
  else (Status.ok, { st with waiting_for_response := true })

/-- Model of PgDocOp::SendRequestIfNeededUnlocked: dispatch only when the
cache is empty, the scan is not complete and no request is in flight. -/
def SendRequestIfNeededUnlocked (flags : Flags) (o : SessionOutcome) (st : ReadOpState) :
    Status × ReadOpState :=
  if !st.has_cached_data && !st.end_of_data && !st.waiting_for_response then
    SendRequestUnlocked flags o st
  else (Status.ok, st)

/-- Model of PgDocOp::WriteToCacheUnlocked on the read-op state: append the
rows blob when it is non-empty and refresh has_cached_data. -/
def WriteToCacheUnlocked (st : ReadOpState) (rows : String) : ReadOpState :=
  if rows ≠ "" then
    { st with
      result_cache := st.result_cache ++ [rows]
      has_cached_data := !(st.result_cache ++ [rows]).isEmpty }
  else st

/-- Model of PgDocOp::ReadFromCacheUnlocked: move the front blob of the
cache into the result when the cache is non-empty. -/
def ReadFromCacheUnlocked (st : ReadOpState) (result : String) : String × ReadOpState :=
  match st.result_cache with
  | [] => (result, st)
  | blob :: rest =>
      (blob, { st with result_cache := rest, has_cached_data := !rest.isEmpty })

/-- Model of PgDocOp::InitUnlocked combined with the PgDocReadOp override:
reset the cache and the end-of-data and cached flags, and ask the template
to return paging state.  The defensive wait of the DFATAL branch is a
concurrency detail outside this sequential model. -/
def InitUnlocked (st : ReadOpState) : ReadOpState :=
  { st with
    result_cache := []
    end_of_data := false
    has_cached_data := false
    template_req := st.template_req.setReturnPagingState true }

/-- Model of PgDocOp::Execute for a read op: fail with IllegalState when
cancelled, otherwise reinitialize and dispatch.  The RequestSent value the
source returns equals waiting_for_response of the final state. -/
def Execute (flags : Flags) (o : SessionOutcome) (st : ReadOpState) :
    Status × ReadOpState :=
  if st.is_canceled then (Status.illegalState "Operation canceled", st)
  else SendRequestUnlocked flags o (InitUnlocked st)

/-- Model of PgDocOp::GetResult for a read op in the sequential case: the
condition-variable wait is modelled as already satisfied, which is exact
whenever the state reached after the needed dispatch has cached data or
end_of_data (all theorems below use it in that regime). -/
def GetResult (flags : Flags) (o : SessionOutcome) (st : ReadOpState) (result : String) :
    Status × String × ReadOpState :=
  if st.is_canceled then (Status.illegalState "Operation canceled", result, st)
  else if !st.exec_status.isOk then (st.exec_status, result, st)
  else
    let sent := SendRequestIfNeededUnlocked flags o st
    if !sent.1.isOk then (sent.1, result, sent.2)
    else if !sent.2.exec_status.isOk then (sent.2.exec_status, result, sent.2)
    else
      let read := ReadFromCacheUnlocked sent.2 result
      let sent2 := SendRequestIfNeededUnlocked flags o read.2
      if !sent2.1.isOk then (sent2.1, read.1, sent2.2)
      else (Status.ok, read.1, sent2.2)

/-- Model of PgDocOp::EndOfResult: return the sticky status when it is
non-OK, the end-of-result condition otherwise. -/
def EndOfResult (st : ReadOpState) : Except Status Bool :=
  if !st.exec_status.isOk then Except.error st.exec_status
  else Except.ok (!st.has_cached_data && st.end_of_data)

/-- Model of PgDocOp::SetExecParams: copy the block when the pointer is
non-null. -/
def SetExecParams (st : ReadOpState) (p : Option PgExecParameters) : ReadOpState :=
  match p with
  | some q => { st with exec_params := q }
  | none => st

/-- Model of PgDocOp::AbortAndWait as seen in the op state: set the
cancellation flag (the wait for the in-flight callback is a concurrency
detail; the callback itself is a separate event). -/
def AbortAndWait (st : ReadOpState) : ReadOpState :=
  { st with is_canceled := true }

/-- The session stores each sub-response (and its rows data) into its op
before invoking the flush callback; this patches that data into the live
list, pairing ops with responses in order and leaving unpaired ops alone. -/
def patchOps : List YBPgsqlReadOp → List (PgsqlResponsePB × String) → List YBPgsqlReadOp
  | [], _ => []
  | ops, [] => ops
  | op :: ops, d :: ds =>
      { op with response := d.1, rows_data := d.2 } :: patchOps ops ds

/-- The keep-or-remove loop of PgDocReadOp::ReceiveResponse: an op whose
response carries a paging state survives with the paging state installed on
the innermost nested request and the catalog version cleared on the outer
request; an op without one is erased. -/
def processPagingLoop : List YBPgsqlReadOp → List YBPgsqlReadOp
  | [] => []
  | op :: rest =>
      match op.response.paging_state with
      | some ps =>
          { op with
            request := (op.request.setPagingStateInnermost ps).clearCatalogVersion }
            :: processPagingLoop rest
      | none => processPagingLoop rest

/-- Model of PgDocReadOp::ReceiveResponse: clear the in-flight flag, store
the flush status, fold the per-op classification over the live list, and on
the surviving paths either finish with end_of_data (error or cancellation)
or cache the received rows, advance the paging state of each op and recompute
end_of_data. -/
def ReceiveResponse (st : ReadOpState) (exec_status : Status) : ReadOpState :=
  let st1 := { st with waiting_for_response := false, exec_status := exec_status }
  let st2 :=
    if exec_status.isOk then
      { st1 with
        exec_status :=
          st1.read_ops.foldl (fun s op => HandleResponseStatus op.response s) st1.exec_status }
    else st1
  if !st2.exec_status.isOk then { st2 with end_of_data := true }
  else if !st2.is_canceled then
    let st3 := st2.read_ops.foldl (fun s op => WriteToCacheUnlocked s op.rows_data) st2
    let newOps := processPagingLoop st3.read_ops
    { st3 with
      read_ops := newOps
      end_of_data := newOps.isEmpty && !st3.can_produce_more_ops }
  else { st2 with end_of_data := true }

/-- One interaction with a read op: the consumer calls (execute, fetch,
set-exec-params, abort) or the session delivers the flush callback carrying
the per-op response data. -/
inductive ReadEvent where
  | execute (o : SessionOutcome)
  | fetch (o : SessionOutcome)
  | receiveResponse (incoming : Status) (data : List (PgsqlResponsePB × String))
  | abortAndWait
  | setExecParams (p : Option PgExecParameters)

/-- State transition of one event.  A flush callback can only be delivered
while a request is in flight (the source CHECKs waiting_for_response_ and the
session invokes the callback exactly once per flush), so receiveResponse on
a non-waiting state leaves it unchanged. -/
def readStep (flags : Flags) (st : ReadOpState) : ReadEvent → ReadOpState
  | .execute o => (Execute flags o st).2
  | .fetch o => (GetResult flags o st "").2.2
  | .receiveResponse incoming data =>
      if st.waiting_for_response then
        ReceiveResponse { st with read_ops := patchOps st.read_ops data } incoming
      else st
  | .abortAndWait => AbortAndWait st
  | .setExecParams p => SetExecParams st p

/-- Run a sequence of events against a read op. -/
def runRead (flags : Flags) (st : ReadOpState) (evs : List ReadEvent) : ReadOpState :=
  evs.foldl (readStep flags) st

/-- Modelled from the spec: the initial member values of a freshly
constructed PgDocReadOp.  The constructor bodies in pg_doc_op.cc only set
the three execution-parameter fields; the remaining in-class initializers
live in pg_doc_op.h, which is not among the sources.  Per the spec data
model: exec status OK until first failure, cancellation and in-flight flags
clear, empty cache, end-of-data false, no live sub-requests, next_op_idx 0,
partition expressions built lazily (empty), can-produce-more-ops true until
the permutations are exhausted. -/
def initialReadOpState (flags : Flags) (prev : PgExecParameters) (numHash : Nat)
    (tmpl : ReadReq) : ReadOpState :=
  { is_canceled := false
    waiting_for_response := false
    end_of_data := false
    has_cached_data := false
    result_cache := []
    exec_status := Status.ok
    exec_params := PgDocOp_ctor_exec_params flags prev
    num_hash_key_columns := numHash
    template_req := tmpl
    read_ops := []
    partition_exprs := []
    next_op_idx := 0
    can_produce_more_ops := true }

/-- Model of client::YBPgsqlWriteOp as pg_doc_op.cc uses it: the response
the session stored into it and the rows data blob (the write request itself
is opaque to this file). -/
structure YBPgsqlWriteOp where
  response : PgsqlResponsePB
  rows_data : String

/-- State of a PgDocWriteOp: the PgDocOp base members plus the single write
op and the affected-row count. -/
structure WriteOpState where
  is_canceled : Bool
  waiting_for_response : Bool
  end_of_data : Bool
  has_cached_data : Bool
  result_cache : List String
  exec_status : Status
  exec_params : PgExecParameters
  write_op : YBPgsqlWriteOp
  rows_affected_count : Nat

/-- Summary of what the storage session does for one write dispatch: the
status of PgApplyAsync, whether it reported the op as buffered, and the
status PgFlushAsync returns. -/
structure WriteSessionOutcome where
  applyStatus : Status
  buffered : Bool
  flushStatus : Status

/-- Model of PgDocWriteOp::SendRequestUnlocked: apply the single write op;
when the session buffered it, return OK at once without marking a request in
flight; otherwise mark in flight and schedule the flush, backing the flag
out when scheduling fails. -/
def WriteSendRequestUnlocked (o : WriteSessionOutcome) (st : WriteOpState) :
    Status × WriteOpState :=
  if !o.applyStatus.isOk then (o.applyStatus, st)
  else if o.buffered then (Status.ok, st)
  else if !o.flushStatus.isOk then (o.flushStatus, st)
  else (Status.ok, { st with waiting_for_response := true })

/-- Whether an event is a call of Execute. -/
def ReadEvent.isExecute : ReadEvent → Bool
  | .execute _ => true
  | _ => false

/-- The transformation ReceiveResponse applies to a surviving sub-request:
install the paging state of its response onto the innermost nested request
and clear the catalog version of the outer request. -/
def pagingUpdate (op : YBPgsqlReadOp) (ps : Nat) : YBPgsqlReadOp :=
  { op with request := (op.request.setPagingStateInnermost ps).clearCatalogVersion }

/-- Keep-or-remove decision for one sub-request after a response: kept (and
updated) exactly when its response carries a paging state. -/
def keepOp (op : YBPgsqlReadOp) : Option YBPgsqlReadOp :=
  match op.response.paging_state with
  | some ps => some (pagingUpdate op ps)
  | none => none

/-- Concrete flag values (the source defaults: prefetch 1024, backward scale
factor 1/16, request limit 1024) used by the witnesses below. -/
def flags0 : Flags :=
  { ysql_prefetch_limit := 1024
    ysql_backward_prefetch_scale_factor := (1 : Rat) / 16
    ysql_request_limit := 1024 }

/-- Concrete default-constructed parameter block used by the witnesses. -/
def prev0 : PgExecParameters :=
  { limit_count := 0, limit_offset := 0, limit_use_default := false, rowmark := -1 }

/-- Session outcome of a fully successful dispatch. -/
def okOutcome : SessionOutcome :=
  { applyStatus := Status.ok, anyBuffered := false, flushStatus := Status.ok }

/-- Concrete template request with no partition column values. -/
def tmpl0 : ReadReq :=
  ReadReq.mk [] 0 none true none (some 42) true none

/-- Concrete read-op state carrying a sticky error, with no request in
flight. -/
def errSt : ReadOpState :=
  { initialReadOpState flags0 prev0 0 tmpl0 with
    exec_status := Status.qlError "boom" 1 2
    end_of_data := true }

/-- Concrete failed duplicate-key response used by the classification
witness. -/
def respDup : PgsqlResponsePB :=
  { status := PgsqlStatus.duplicateKeyError
    error_message := "dup"
    pg_error_code := some 5
    txn_error_code := none
    paging_state := none
    rows_affected_count := 0 }

/-- Concrete flags falsifying the claim that the applied prefetch limit is
always at least 1. -/
def cexFlags : Flags :=
  { ysql_prefetch_limit := 5
    ysql_backward_prefetch_scale_factor := 1
    ysql_request_limit := 10 }

/-- Concrete execution parameters falsifying that claim: SQL limits in
force (limit_use_default false) with limit_count and limit_offset both 0. -/
def cexParams : PgExecParameters :=
  { limit_count := 0, limit_offset := 0, limit_use_default := false, rowmark := -1 }

/-- The partition-expression lists of the 2 by 3 fan-out example:
a IN (1, 2) and b IN (10, 20, 30). -/
def c2exprs : List (List PgExpr) :=
  [[PgExpr.value 1, PgExpr.value 2],
   [PgExpr.value 10, PgExpr.value 20, PgExpr.value 30]]

/-- Template request of the fan-out example: two hash columns whose
partition column values encode a IN (1, 2) and b IN (10, 20, 30) as
condition nodes. -/
def c2tmpl : ReadReq :=
  ReadReq.mk
    [PgExpr.condition [PgExpr.value 0, PgExpr.condition [PgExpr.value 1, PgExpr.value 2]],
     PgExpr.condition [PgExpr.value 0,
       PgExpr.condition [PgExpr.value 10, PgExpr.value 20, PgExpr.value 30]]]
    0 none true none (some 42) true none

/-- Freshly constructed read op over the fan-out example table (two hash
key columns). -/
def c2st : ReadOpState := initialReadOpState flags0 prev0 2 c2tmpl

/-- Read request with a two-deep index_request chain, for the paging
witness. -/
def nestedReq : ReadReq :=
  ReadReq.mk [] 7 none true none (some 3) true
    (some (ReadReq.mk [] 8 none true none none true none))

/-- Sub-request whose response carries a paging continuation. -/
def opWithPaging : YBPgsqlReadOp :=
  { request := nestedReq
    response := { emptyResponse with paging_state := some 77 }
    rows_data := "R1" }

/-- Sub-request whose response carries no continuation. -/
def opNoPaging : YBPgsqlReadOp :=
  { request := tmpl0
    response := emptyResponse
    rows_data := "R2" }

/-- Concrete read-op state whose two live sub-requests just received their
responses, for the paging witness. -/
def c5st : ReadOpState :=
  { initialReadOpState flags0 prev0 0 tmpl0 with
    waiting_for_response := true
    read_ops := [opWithPaging, opNoPaging]
    can_produce_more_ops := false }

/-- Concrete cancelled read-op state with a request in flight. -/
def c8st : ReadOpState :=
  { initialReadOpState flags0 prev0 0 tmpl0 with
    is_canceled := true
    waiting_for_response := true
    read_ops := [opNoPaging] }

/-- Concrete read-op state with an empty cache and end_of_data set, for the
fetch-at-end witness. -/
def c4st : ReadOpState :=
  { initialReadOpState flags0 prev0 0 tmpl0 with end_of_data := true }

/-- Concrete write-op state used by the buffered-write witness. -/
def wSt0 : WriteOpState :=
  { is_canceled := false
    waiting_for_response := false
    end_of_data := false
    has_cached_data := false
    result_cache := []
    exec_status := Status.ok
    exec_params := prev0
    write_op := { response := emptyResponse, rows_data := "" }
    rows_affected_count := 0 }

/-- Session outcome of a buffered write apply. -/
def bufferedOutcome : WriteSessionOutcome :=
  { applyStatus := Status.ok, buffered := true, flushStatus := Status.ok }

/-! Theorems. -/

/-- C10: a freshly constructed op has limit_use_default true, limit_offset 0
and limit_count equal to the prefetch flag, and consequently its first
prefetch sizing applies the (clamped) system prefetch limit, whatever the
default-initialized block and scan direction were. -/
theorem ctor_exec_params_defaults (flags : Flags) (prev : PgExecParameters) (fwd : Bool) :
    (PgDocOp_ctor_exec_params flags prev).limit_use_default = true ∧
    (PgDocOp_ctor_exec_params flags prev).limit_offset = 0 ∧
    (PgDocOp_ctor_exec_params flags prev).limit_count = flags.ysql_prefetch_limit ∧
    computePrefetchLimit flags (PgDocOp_ctor_exec_params flags prev) fwd
      = predictedPrefetchLimit flags fwd := by
  refine ⟨rfl, rfl, rfl, ?_⟩
  simp [computePrefetchLimit, PgDocOp_ctor_exec_params]

/-- C7: classification of a failed sub-response produces AlreadyPresent
exactly on a duplicate-key storage status and QLError otherwise, carries the
storage message, and attaches the pg-error code (defaulting to
INTERNAL_ERROR) and the transaction-error code (defaulting to none) on both
kinds. -/
theorem handleResponseStatus_classification (resp : PgsqlResponsePB) (s : Status)
    (hfail : respSucceeded resp = false) :
    ((resp.status = PgsqlStatus.duplicateKeyError) →
        (HandleResponseStatus resp s).isAlreadyPresent = true) ∧
    ((resp.status ≠ PgsqlStatus.duplicateKeyError) →
        (HandleResponseStatus resp s).isQLError = true) ∧
    (HandleResponseStatus resp s).message = resp.error_message ∧
    (HandleResponseStatus resp s).pgErrAttr
      = some (resp.pg_error_code.getD YB_PG_INTERNAL_ERROR) ∧
    (HandleResponseStatus resp s).txnErrAttr
      = some (resp.txn_error_code.getD TransactionErrorCode_kNone) := by
  by_cases hd : resp.status = PgsqlStatus.duplicateKeyError <;>
    cases hpg : resp.pg_error_code <;> cases htxn : resp.txn_error_code <;>
      simp [HandleResponseStatus, hfail, hd, hpg, htxn, Status.cloneAndAddTxnError,
        Status.isAlreadyPresent, Status.isQLError, Status.message, Status.pgErrAttr,
        Status.txnErrAttr]

/-- Witness for C7 at a concrete failed duplicate-key response. -/
theorem handleResponseStatus_classification_witness :
    respSucceeded respDup = false ∧
    (HandleResponseStatus respDup Status.ok).isAlreadyPresent = true ∧
    (HandleResponseStatus respDup Status.ok).message = "dup" ∧
    (HandleResponseStatus respDup Status.ok).pgErrAttr = some 5 ∧
    (HandleResponseStatus respDup Status.ok).txnErrAttr = some TransactionErrorCode_kNone := by
  have h := handleResponseStatus_classification respDup Status.ok rfl
  exact ⟨rfl, h.1 rfl, h.2.2.1, h.2.2.2.1, h.2.2.2.2⟩

/-- C3 counterexample: with limit_use_default false and both SQL limits 0 —
parameters satisfying every hypothesis of the claim — the limit stored into
the read template is 0, not at least 1. -/
theorem prefetch_limit_claim_cex :
    0 ≤ cexParams.limit_count ∧ 0 ≤ cexParams.limit_offset ∧
    0 < cexFlags.ysql_prefetch_limit ∧
    0 < cexFlags.ysql_backward_prefetch_scale_factor ∧
    cexFlags.ysql_backward_prefetch_scale_factor ≤ 1 ∧
    computePrefetchLimit cexFlags cexParams true = 0 := by
  refine ⟨by decide, by decide, by decide, ?_, ?_, by decide⟩ <;> norm_num [cexFlags]

/-- C3 amended: the predicted system prefetch limit is always at least 1,
and the limit applied to the read template is at least 1 whenever the
default limit is in force or the statement limit (count plus offset) is at
least 1. -/
theorem prefetch_limit_at_least_one (flags : Flags) (p : PgExecParameters) (fwd : Bool)
    (hc : 0 ≤ p.limit_count) (ho : 0 ≤ p.limit_offset)
    (hp : 0 < flags.ysql_prefetch_limit)
    (hs1 : 0 < flags.ysql_backward_prefetch_scale_factor)
    (hs2 : flags.ysql_backward_prefetch_scale_factor ≤ 1)
    (huse : p.limit_use_default = true ∨ 1 ≤ p.limit_count + p.limit_offset) :
    1 ≤ predictedPrefetchLimit flags fwd ∧ 1 ≤ computePrefetchLimit flags p fwd := by
  have key : ∀ x : Int, (1 : Int) ≤ if x < 1 then 1 else x := by
    intro x; split <;> omega
  have hpred : 1 ≤ predictedPrefetchLimit flags fwd := by
    unfold predictedPrefetchLimit
    exact key _
  refine ⟨hpred, ?_⟩
  simp only [computePrefetchLimit]
  split
  · exact hpred
  · rename_i h
    rcases huse with hu | hl
    · simp [hu] at h
    · exact hl

/-- Witness for C3 amended at the default flags and a constructed parameter
block, on a backward scan. -/
theorem prefetch_limit_at_least_one_witness :
    (0 ≤ (PgDocOp_ctor_exec_params flags0 prev0).limit_count ∧
      0 < flags0.ysql_prefetch_limit ∧
      0 < flags0.ysql_backward_prefetch_scale_factor ∧
      flags0.ysql_backward_prefetch_scale_factor ≤ 1 ∧
      (PgDocOp_ctor_exec_params flags0 prev0).limit_use_default = true) ∧
    1 ≤ computePrefetchLimit flags0 (PgDocOp_ctor_exec_params flags0 prev0) false := by
  refine ⟨⟨by decide, by decide, by norm_num [flags0], by norm_num [flags0], rfl⟩, ?_⟩
  exact (prefetch_limit_at_least_one flags0 (PgDocOp_ctor_exec_params flags0 prev0) false
    (by decide) (by decide) (by decide) (by norm_num [flags0]) (by norm_num [flags0])
    (Or.inl rfl)).2

/-- C9: when the session reports a write op as buffered, the dispatch
returns OK immediately and the whole op state — in particular the in-flight
flag, end_of_data, the cache, exec_status and the affected-row count — is
unchanged. -/
theorem write_buffered_send_is_noop (o : WriteSessionOutcome) (st : WriteOpState)
    (happly : o.applyStatus.isOk = true) (hbuf : o.buffered = true)
    (hwait : st.waiting_for_response = false) :
    WriteSendRequestUnlocked o st = (Status.ok, st) ∧
    (WriteSendRequestUnlocked o st).2.waiting_for_response = false ∧
    (WriteSendRequestUnlocked o st).2.end_of_data = st.end_of_data ∧
    (WriteSendRequestUnlocked o st).2.result_cache = st.result_cache ∧
    (WriteSendRequestUnlocked o st).2.exec_status = st.exec_status ∧
    (WriteSendRequestUnlocked o st).2.rows_affected_count = st.rows_affected_count := by
  have h : WriteSendRequestUnlocked o st = (Status.ok, st) := by
    simp [WriteSendRequestUnlocked, happly, hbuf]
  rw [h]
  exact ⟨rfl, hwait, rfl, rfl, rfl, rfl⟩

/-- Witness for C9 at a concrete buffered outcome and write-op state. -/
theorem write_buffered_send_is_noop_witness :
    (bufferedOutcome.applyStatus.isOk = true ∧ bufferedOutcome.buffered = true ∧
      wSt0.waiting_for_response = false) ∧
    WriteSendRequestUnlocked bufferedOutcome wSt0 = (Status.ok, wSt0) := by
  exact ⟨⟨rfl, rfl, rfl⟩,
    (write_buffered_send_is_noop bufferedOutcome wSt0 rfl rfl rfl).1⟩

/-- C4: a fetch on a state with OK status, not cancelled, an empty cache and
end_of_data set returns OK, leaves the out blob empty and leaves the state
unchanged. -/
theorem getResult_empty_cache_end_of_data (flags : Flags) (o : SessionOutcome)
    (st : ReadOpState)
    (hcan : st.is_canceled = false)
    (hok : st.exec_status = Status.ok)
    (hcache : st.result_cache = [])
    (hend : st.end_of_data = true) :
    GetResult flags o st "" = (Status.ok, "", st) := by
  simp [GetResult, hcan, hok, SendRequestIfNeededUnlocked, hend,
    ReadFromCacheUnlocked, hcache, Status.isOk]

/-- Witness for C4 at a concrete drained state. -/
theorem getResult_empty_cache_end_of_data_witness :
    (c4st.is_canceled = false ∧ c4st.exec_status = Status.ok ∧
      c4st.result_cache = [] ∧ c4st.end_of_data = true) ∧
    GetResult flags0 okOutcome c4st "" = (Status.ok, "", c4st) := by
  exact ⟨⟨rfl, rfl, rfl, rfl⟩,
    getResult_empty_cache_end_of_data flags0 okOutcome c4st rfl rfl rfl rfl⟩

/-- Indexing with a default into the left part of an appended list. -/
theorem nthD_append_left {α : Type} (l₁ l₂ : List α) (n : Nat) (d : α)
    (h : n < l₁.length) : nthD (l₁ ++ l₂) n d = nthD l₁ n d := by
  simp [nthD, List.getElem?_append_left h]

/-- Indexing with a default at the concatenation point. -/
theorem nthD_concat_length {α : Type} (l : List α) (a : α) (d : α) :
    nthD (l ++ [a]) l.length d = a := by
  simp [nthD, List.get?_concat_length]

/-- Appending one more column multiplies the suffix product by its length,
for cut points inside the original list. -/
theorem suffixProd_append_singleton (init : List (List PgExpr)) (last : List PgExpr)
    (c : Nat) (h : c ≤ init.length) :
    suffixProd (init ++ [last]) c = suffixProd init c * last.length := by
  unfold suffixProd radixProd
  rw [List.drop_append_of_le_length h]
  simp

/-- The suffix product beyond the end of the column list is 1. -/
theorem suffixProd_past_length (exprs : List (List PgExpr)) (c : Nat)
    (h : exprs.length ≤ c) : suffixProd exprs c = 1 := by
  unfold suffixProd radixProd
  rw [List.drop_eq_nil_of_le h]
  rfl

/-- The permutation loop produces one value per reversed column. -/
theorem fillPermRev_length (cols : List (List PgExpr)) (pos : Nat) :
    (fillPermRev cols pos).length = cols.length := by
  induction cols generalizing pos with
  | nil => rfl
  | cons col rest ih => simp [fillPermRev, ih]

/-- A permutation has one value per hash column. -/
theorem permutationAt_length (exprs : List (List PgExpr)) (pos : Nat) :
    (permutationAt exprs pos).length = exprs.length := by
  simp [permutationAt, fillPermRev_length]

/-- Unfolding of the permutation on a column list extended at the back: the
last column is consumed first (it is the least significant radix), the
remaining columns consume the quotient. -/
theorem permutationAt_concat (init : List (List PgExpr)) (last : List PgExpr) (i : Nat) :
    permutationAt (init ++ [last]) i
      = permutationAt init (i / last.length) ++ [nthD last (i % last.length) exprDflt] := by
  simp [permutationAt, fillPermRev]

/-- The value the permutation at index i places in column c is the operand
of column c at index (i divided by the product of the lengths of the later
columns) modulo the length of column c: the mixed-radix digit of i for
radix position c, with the last column least significant. -/
theorem permutationAt_get (exprs : List (List PgExpr)) :
    ∀ (i c : Nat), c < exprs.length →
      (permutationAt exprs i).get? c =
        some (nthD (nthD exprs c []) ((i / suffixProd exprs (c + 1)) % (nthD exprs c []).length)
          exprDflt) := by
  induction exprs using List.reverseRecOn with
  | nil => intro i c hc; exact absurd hc (Nat.not_lt_zero c)
  | append_singleton init last ih =>
    intro i c hc
    rw [permutationAt_concat]
    rcases Nat.lt_or_ge c init.length with hlt | hge
    · rw [List.get?_append (by rw [permutationAt_length]; exact hlt)]
      rw [ih (i / last.length) c hlt]
      rw [nthD_append_left init [last] c [] hlt]
      rw [suffixProd_append_singleton init last (c + 1) (by omega)]
      rw [Nat.div_div_eq_div_mul, Nat.mul_comm]
    · have hc' : c = init.length := by
        rw [List.length_append, List.length_singleton] at hc
        omega
      subst hc'
      have hlen := permutationAt_length init (i / last.length)
      rw [show init.length = (permutationAt init (i / last.length)).length from hlen.symm,
        List.get?_concat_length, hlen, nthD_concat_length,
        suffixProd_past_length (init ++ [last]) (init.length + 1)
          (by rw [List.length_append, List.length_singleton]),
        Nat.div_one]

/-- The op emitted by the generation loop at offset j from the starting
index is the clone for permutation index idx + j. -/
theorem genOps_get (tmpl : ReadReq) (exprs : List (List PgExpr)) (total : Nat) :
    ∀ (n idx j : Nat) (op : YBPgsqlReadOp),
      (genOps tmpl exprs total n idx).1.get? j = some op →
      op = mkPermOp tmpl exprs (idx + j) := by
  intro n
  induction n with
  | zero => intro idx j op h; simp [genOps] at h
  | succ m ih =>
    intro idx j op h
    by_cases hlt : idx < total
    · simp only [genOps, if_pos hlt] at h
      cases j with
      | zero =>
        simp at h
        exact h.symm
      | succ j' =>
        have h2 := ih (idx + 1) j' op (by simpa using h)
        rw [h2]
        congr 1
        omega
    · simp only [genOps, if_neg hlt] at h
      simp at h

/-- The partition column values written by setPCV. -/
theorem setPCV_partition_column_values (r : ReadReq) (pcv : List PgExpr) :
    (r.setPCV pcv).partition_column_values = pcv := by
  cases r; rfl

/-- C2: every sub-request the fan-out emits at permutation position
next_op_idx + j carries in hash column c the operand selected by the
mixed-radix decomposition of that position, with the last hash column as the
least significant radix (lexicographic enumeration over leading columns). -/
theorem initializeNextOps_mixed_radix (st : ReadOpState) (num_ops : Int)
    (exprs : List (List PgExpr)) (i c : Nat)
    (hex : effectivePartitionExprs st = exprs)
    (hne : ∀ l ∈ exprs, 0 < l.length)
    (hc : c < exprs.length)
    (hidx : st.next_op_idx = i)
    (hpcv : st.template_req.partition_column_values.length ≠ 0) :
    ∀ (j : Nat) (op : YBPgsqlReadOp),
      (InitializeNextOps st num_ops).read_ops.get? (st.read_ops.length + j) = some op →
      op.request.partition_column_values.get? c =
        some (nthD (nthD exprs c [])
          (((i + j) / suffixProd exprs (c + 1)) % (nthD exprs c []).length) exprDflt) := by
  intro j op h
  by_cases hn : num_ops ≤ 0
  · rw [InitializeNextOps, if_pos hn] at h
    rw [List.get?_eq_none.mpr (by omega)] at h
    cases h
  · rw [InitializeNextOps, if_neg hn, if_neg hpcv] at h
    simp only [hex] at h
    rw [List.get?_append_right (by omega), Nat.add_sub_cancel_left] at h
    have hop := genOps_get st.template_req exprs (radixProd exprs) num_ops.toNat
      st.next_op_idx j op h
    rw [hop, hidx]
    show (ReadReq.setPCV st.template_req (permutationAt exprs (i + j))).partition_column_values.get?
        c = _
    rw [setPCV_partition_column_values]
    exact permutationAt_get exprs (i + j) c hc

/-- Witness for C2: the 2 by 3 example a IN (1, 2), b IN (10, 20, 30).  The
lazily built partition expressions are the two operand lists; the
sub-request emitted at position 3 carries (2, 10), the fourth pair of the
lexicographic enumeration (1,10),(1,20),(1,30),(2,10),(2,20),(2,30). -/
theorem initializeNextOps_mixed_radix_witness :
    effectivePartitionExprs c2st = c2exprs ∧
    (∀ l ∈ c2exprs, 0 < l.length) ∧
    c2st.template_req.partition_column_values.length ≠ 0 ∧
    (InitializeNextOps c2st 6).read_ops.get? 3 = some (mkPermOp c2tmpl c2exprs 3) ∧
    (mkPermOp c2tmpl c2exprs 3).request.partition_column_values.get? 0
      = some (PgExpr.value 2) ∧
    (mkPermOp c2tmpl c2exprs 3).request.partition_column_values.get? 1
      = some (PgExpr.value 10) := by
  refine ⟨rfl, by decide, by decide, rfl, ?_, ?_⟩
  · have h := initializeNextOps_mixed_radix c2st 6 c2exprs 0 0 rfl (by decide) (by decide)
      rfl (by decide) 3 (mkPermOp c2tmpl c2exprs 3) rfl
    exact h.trans rfl
  · have h := initializeNextOps_mixed_radix c2st 6 c2exprs 0 1 rfl (by decide) (by decide)
      rfl (by decide) 3 (mkPermOp c2tmpl c2exprs 3) rfl
    exact h.trans rfl

/-- Installing a paging state through the index_request chain places it on
the innermost request. -/
theorem setPagingStateInnermost_innermost : ∀ (r : ReadReq) (ps : Nat),
    ((r.setPagingStateInnermost ps).innermost).paging_state = some ps
  | .mk _ _ _ _ _ _ _ none, _ => rfl
  | .mk pcv l rm f p v rp (some inner), ps => by
      show ((inner.setPagingStateInnermost ps).innermost).paging_state = some ps
      exact setPagingStateInnermost_innermost inner ps

/-- Clearing the catalog version acts on the outer request only, so the
innermost paging state installed before is untouched. -/
theorem pagingInstall_innermost (r : ReadReq) (ps : Nat) :
    (((r.setPagingStateInnermost ps).clearCatalogVersion).innermost).paging_state = some ps := by
  cases r with
  | mk pcv l rm f p v rp i =>
    cases i with
    | none => rfl
    | some inner =>
      show ((inner.setPagingStateInnermost ps).innermost).paging_state = some ps
      exact setPagingStateInnermost_innermost inner ps

/-- The outer catalog version is cleared by clearCatalogVersion. -/
theorem clearCatalogVersion_none (r : ReadReq) :
    r.clearCatalogVersion.ysql_catalog_version = none := by
  cases r; rfl

/-- Classification leaves the status alone when every sub-response
succeeded. -/
theorem foldl_handle_ok (ops : List YBPgsqlReadOp) (s : Status)
    (h : ∀ op ∈ ops, respSucceeded op.response = true) :
    ops.foldl (fun s op => HandleResponseStatus op.response s) s = s := by
  induction ops generalizing s with
  | nil => rfl
  | cons op rest ih =>
    have hop := h op (List.mem_cons_self op rest)
    simp only [List.foldl_cons, HandleResponseStatus, hop, if_true]
    exact ih s (fun o ho => h o (List.mem_cons_of_mem _ ho))

/-- Caching a rows blob does not touch the live list, the fan-out state,
the cancellation flag, the status or the in-flight flag. -/
theorem writeToCache_fields (s : ReadOpState) (rows : String) :
    (WriteToCacheUnlocked s rows).read_ops = s.read_ops ∧
    (WriteToCacheUnlocked s rows).can_produce_more_ops = s.can_produce_more_ops ∧
    (WriteToCacheUnlocked s rows).is_canceled = s.is_canceled ∧
    (WriteToCacheUnlocked s rows).exec_status = s.exec_status ∧
    (WriteToCacheUnlocked s rows).waiting_for_response = s.waiting_for_response := by
  unfold WriteToCacheUnlocked
  split <;> exact ⟨rfl, rfl, rfl, rfl, rfl⟩

/-- The cache-filling fold of ReceiveResponse does not touch those fields
either. -/
theorem foldl_writeCache_fields (ops : List YBPgsqlReadOp) :
    ∀ st : ReadOpState,
      ((ops.foldl (fun s op => WriteToCacheUnlocked s op.rows_data) st).read_ops = st.read_ops) ∧
      ((ops.foldl (fun s op => WriteToCacheUnlocked s op.rows_data) st).can_produce_more_ops
        = st.can_produce_more_ops) ∧
      ((ops.foldl (fun s op => WriteToCacheUnlocked s op.rows_data) st).is_canceled
        = st.is_canceled) ∧
      ((ops.foldl (fun s op => WriteToCacheUnlocked s op.rows_data) st).exec_status
        = st.exec_status) ∧
      ((ops.foldl (fun s op => WriteToCacheUnlocked s op.rows_data) st).waiting_for_response
        = st.waiting_for_response) := by
  induction ops with
  | nil => intro st; exact ⟨rfl, rfl, rfl, rfl, rfl⟩
  | cons op rest ih =>
    intro st
    have h1 := writeToCache_fields st op.rows_data
    have h2 := ih (WriteToCacheUnlocked st op.rows_data)
    simp only [List.foldl_cons]
    exact ⟨h2.1.trans h1.1, h2.2.1.trans h1.2.1, h2.2.2.1.trans h1.2.2.1,
      h2.2.2.2.1.trans h1.2.2.2.1, h2.2.2.2.2.trans h1.2.2.2.2⟩

/-- Projection of the previous lemma: the live list. -/
theorem foldl_writeCache_read_ops (ops : List YBPgsqlReadOp) (st : ReadOpState) :
    (ops.foldl (fun s op => WriteToCacheUnlocked s op.rows_data) st).read_ops = st.read_ops :=
  (foldl_writeCache_fields ops st).1

/-- Projection of the previous lemma: the fan-out flag. -/
theorem foldl_writeCache_can_produce (ops : List YBPgsqlReadOp) (st : ReadOpState) :
    (ops.foldl (fun s op => WriteToCacheUnlocked s op.rows_data) st).can_produce_more_ops
      = st.can_produce_more_ops :=
  (foldl_writeCache_fields ops st).2.1

/-- Projection of the previous lemma: the cancellation flag. -/
theorem foldl_writeCache_is_canceled (ops : List YBPgsqlReadOp) (st : ReadOpState) :
    (ops.foldl (fun s op => WriteToCacheUnlocked s op.rows_data) st).is_canceled
      = st.is_canceled :=
  (foldl_writeCache_fields ops st).2.2.1

/-- Projection of the previous lemma: the execution status. -/
theorem foldl_writeCache_exec_status (ops : List YBPgsqlReadOp) (st : ReadOpState) :
    (ops.foldl (fun s op => WriteToCacheUnlocked s op.rows_data) st).exec_status
      = st.exec_status :=
  (foldl_writeCache_fields ops st).2.2.2.1

/-- Projection of the previous lemma: the in-flight flag. -/
theorem foldl_writeCache_waiting (ops : List YBPgsqlReadOp) (st : ReadOpState) :
    (ops.foldl (fun s op => WriteToCacheUnlocked s op.rows_data) st).waiting_for_response
      = st.waiting_for_response :=
  (foldl_writeCache_fields ops st).2.2.2.2

/-- The erase-loop over the live list equals a filterMap by the
keep-or-remove decision. -/
theorem processPagingLoop_eq_filterMap (ops : List YBPgsqlReadOp) :
    processPagingLoop ops = ops.filterMap keepOp := by
  induction ops with
  | nil => rfl
  | cons op rest ih =>
    cases hps : op.response.paging_state with
    | some ps =>
        simp [processPagingLoop, hps, keepOp, ih, List.filterMap_cons, pagingUpdate]
    | none => simp [processPagingLoop, hps, keepOp, ih, List.filterMap_cons]

/-- Shape of ReceiveResponse on the fully successful, non-cancelled path:
the live list becomes the paging-processed list and end_of_data is
recomputed from it and the fan-out state. -/
theorem receiveResponse_ok_shape (st : ReadOpState)
    (hcan : st.is_canceled = false)
    (hsucc : ∀ op ∈ st.read_ops, respSucceeded op.response = true) :
    (ReceiveResponse st Status.ok).read_ops = processPagingLoop st.read_ops ∧
    (ReceiveResponse st Status.ok).end_of_data
      = ((processPagingLoop st.read_ops).isEmpty && !st.can_produce_more_ops) := by
  have hfold : st.read_ops.foldl (fun s op => HandleResponseStatus op.response s) Status.ok
      = Status.ok := foldl_handle_ok st.read_ops Status.ok hsucc
  constructor <;>
    simp [ReceiveResponse, Status.isOk, hfold, hcan,
      foldl_writeCache_read_ops, foldl_writeCache_can_produce]

/-- C5: on an OK response of a non-cancelled read op whose sub-requests all
succeeded, the surviving live list consists exactly of the sub-requests
whose responses carried a paging continuation, each with the continuation
installed on the innermost request of its index_request chain and the
catalog version cleared on the outer request; sub-requests without a
continuation are removed, and end_of_data is set to (live list empty) and
(no more ops can be produced). -/
theorem receiveResponse_paging (st : ReadOpState)
    (hcan : st.is_canceled = false)
    (hsucc : ∀ op ∈ st.read_ops, respSucceeded op.response = true) :
    (ReceiveResponse st Status.ok).read_ops = st.read_ops.filterMap keepOp ∧
    (∀ op (ps : Nat), op.response.paging_state = some ps →
        keepOp op = some (pagingUpdate op ps) ∧
        ((pagingUpdate op ps).request.innermost).paging_state = some ps ∧
        (pagingUpdate op ps).request.ysql_catalog_version = none) ∧
    (∀ op : YBPgsqlReadOp, op.response.paging_state = none → keepOp op = none) ∧
    (ReceiveResponse st Status.ok).end_of_data
      = ((ReceiveResponse st Status.ok).read_ops.isEmpty && !st.can_produce_more_ops) := by
  obtain ⟨h1, h2⟩ := receiveResponse_ok_shape st hcan hsucc
  refine ⟨h1.trans (processPagingLoop_eq_filterMap st.read_ops), ?_, ?_, ?_⟩
  · intro op ps hps
    exact ⟨by simp [keepOp, hps], pagingInstall_innermost op.request ps,
      clearCatalogVersion_none (op.request.setPagingStateInnermost ps)⟩
  · intro op hps
    simp [keepOp, hps]
  · rw [h1, h2]

/-- Witness for C5 at a concrete pair of sub-requests, one with a
continuation on a nested request, one without: the first survives with the
paging state on the innermost request, the second is removed, and the scan
is not yet ended because a sub-request is still live. -/
theorem receiveResponse_paging_witness :
    c5st.is_canceled = false ∧
    (∀ op ∈ c5st.read_ops, respSucceeded op.response = true) ∧
    (ReceiveResponse c5st Status.ok).read_ops = [pagingUpdate opWithPaging 77] ∧
    ((pagingUpdate opWithPaging 77).request.innermost).paging_state = some 77 ∧
    (pagingUpdate opWithPaging 77).request.ysql_catalog_version = none ∧
    (ReceiveResponse c5st Status.ok).end_of_data = false := by
  have h := receiveResponse_paging c5st rfl (by decide)
  have hop := h.2.1 opWithPaging 77 rfl
  refine ⟨rfl, by decide, h.1.trans (by rfl), hop.2.1, hop.2.2, ?_⟩
  rw [h.2.2.2, h.1.trans (by rfl)]
  rfl

/-- A fetch entered with a non-OK sticky status leaves the state unchanged,
and, unless the op is cancelled, returns that status. -/
theorem getResult_on_error (flags : Flags) (o : SessionOutcome) (st : ReadOpState)
    (res : String) (h : st.exec_status.isOk = false) :
    (GetResult flags o st res).2.2 = st ∧
    (st.is_canceled = false → (GetResult flags o st res).1 = st.exec_status) := by
  by_cases hc : st.is_canceled
  · constructor
    · simp [GetResult, hc]
    · intro hfalse; rw [hc] at hfalse; cases hfalse
  · constructor
    · simp [GetResult, hc, h]
    · intro _; simp [GetResult, hc, h]

/-- No event except execute can change a sticky non-OK status while no
request is in flight: fetch returns early, a callback cannot be delivered,
abort and parameter setting touch other fields. -/
theorem readStep_preserves_error (flags : Flags) (st : ReadOpState) (e : Status)
    (he : e.isOk = false) (hs : st.exec_status = e) (hw : st.waiting_for_response = false)
    (ev : ReadEvent) (hne : ev.isExecute = false) :
    (readStep flags st ev).exec_status = e ∧
    (readStep flags st ev).waiting_for_response = false := by
  cases ev with
  | execute o => cases hne
  | fetch o =>
      have h := (getResult_on_error flags o st "" (by rw [hs]; exact he)).1
      show (GetResult flags o st "").2.2.exec_status = e ∧
        (GetResult flags o st "").2.2.waiting_for_response = false
      rw [h]
      exact ⟨hs, hw⟩
  | receiveResponse incoming data =>
      show (if st.waiting_for_response then _ else st).exec_status = e ∧
        (if st.waiting_for_response then _ else st).waiting_for_response = false
      rw [hw]
      exact ⟨hs, hw⟩
  | abortAndWait => exact ⟨hs, hw⟩
  | setExecParams p => cases p <;> exact ⟨hs, hw⟩

/-- C1 amended: once exec_status is non-OK and the callback that set it has
completed, it stays that way under any sequence of fetch, callback, abort
and parameter-setting events (anything but a new Execute); every fetch on a
non-cancelled state returns the sticky status, and end_of_result reports it.
Only a renewed Execute (which reinitializes the op) can clear it. -/
theorem exec_status_sticky_without_execute (flags : Flags) (st : ReadOpState) (e : Status)
    (he : e.isOk = false) (hs : st.exec_status = e) (hw : st.waiting_for_response = false) :
    (∀ evs : List ReadEvent, (∀ ev ∈ evs, ev.isExecute = false) →
        (runRead flags st evs).exec_status = e) ∧
    (∀ (o : SessionOutcome) (res : String),
        st.is_canceled = false → (GetResult flags o st res).1 = e) ∧
    EndOfResult st = Except.error e := by
  refine ⟨?_, ?_, ?_⟩
  · have main : ∀ (evs : List ReadEvent) (s : ReadOpState), s.exec_status = e →
        s.waiting_for_response = false → (∀ ev ∈ evs, ev.isExecute = false) →
        (runRead flags s evs).exec_status = e := by
      intro evs
      induction evs with
      | nil => intro s h1 _ _; exact h1
      | cons ev rest ih =>
          intro s h1 h2 hall
          have hstep := readStep_preserves_error flags s e he h1 h2 ev
            (hall ev (List.mem_cons_self ev rest))
          exact ih (readStep flags s ev) hstep.1 hstep.2
            (fun x hx => hall x (List.mem_cons_of_mem _ hx))
    exact fun evs hall => main evs st hs hw hall
  · intro o res hcan
    rw [(getResult_on_error flags o st res (by rw [hs]; exact he)).2 hcan]
    exact hs
  · simp [EndOfResult, hs, he]

/-- C1 counterexample: on a state carrying a sticky error, Execute does not
return the error (it reinitializes and redispatches, returning OK), and the
response callback of the new request overwrites exec_status back to OK — the
error is not sticky across Execute. -/
theorem exec_status_reset_by_execute_cex :
    errSt.exec_status = Status.qlError "boom" 1 2 ∧
    (Execute flags0 okOutcome errSt).1 = Status.ok ∧
    (runRead flags0 errSt
        [ReadEvent.execute okOutcome,
         ReadEvent.receiveResponse Status.ok [(emptyResponse, "R1")]]).exec_status
      = Status.ok := by
  exact ⟨rfl, rfl, rfl⟩

/-- Witness for C1 amended: the sticky error survives a fetch and an abort,
a fetch returns it, and end_of_result reports it. -/
theorem exec_status_sticky_without_execute_witness :
    ((Status.qlError "boom" 1 2).isOk = false ∧ errSt.exec_status = Status.qlError "boom" 1 2 ∧
      errSt.waiting_for_response = false ∧ errSt.is_canceled = false) ∧
    (runRead flags0 errSt [ReadEvent.fetch okOutcome, ReadEvent.abortAndWait]).exec_status
      = Status.qlError "boom" 1 2 ∧
    (GetResult flags0 okOutcome errSt "").1 = Status.qlError "boom" 1 2 ∧
    EndOfResult errSt = Except.error (Status.qlError "boom" 1 2) := by
  have h := exec_status_sticky_without_execute flags0 errSt (Status.qlError "boom" 1 2)
    rfl rfl rfl
  exact ⟨⟨rfl, rfl, rfl, rfl⟩,
    h.1 [ReadEvent.fetch okOutcome, ReadEvent.abortAndWait] (by decide),
    h.2.1 okOutcome "" rfl, h.2.2⟩

/-- The flush callback never touches the cancellation flag. -/
theorem receiveResponse_is_canceled (st : ReadOpState) (inc : Status) :
    (ReceiveResponse st inc).is_canceled = st.is_canceled := by
  obtain ⟨ic, wr, ed, hcd, rc, es, ep, nh, tr, ro, pe, ni, cp⟩ := st
  simp only [ReceiveResponse]
  by_cases hok : inc.isOk <;>
    simp only [hok, if_true, if_false, Bool.false_eq_true] <;>
    split <;>
    first
      | rfl
      | (split <;> simp [foldl_writeCache_is_canceled])

/-- A callback delivered to a cancelled op discards the received rows (the
cache is untouched) and sets end_of_data. -/
theorem receiveResponse_canceled (st : ReadOpState) (inc : Status)
    (hc : st.is_canceled = true) :
    (ReceiveResponse st inc).result_cache = st.result_cache ∧
    (ReceiveResponse st inc).end_of_data = true := by
  obtain ⟨ic, wr, ed, hcd, rc, es, ep, nh, tr, ro, pe, ni, cp⟩ := st
  replace hc : ic = true := hc
  subst hc
  simp only [ReceiveResponse]
  by_cases hok : inc.isOk <;>
    simp only [hok, if_true, if_false, Bool.false_eq_true] <;>
    split <;> exact ⟨rfl, rfl⟩

/-- C8: cancellation is sticky across every event; Execute and fetch on a
cancelled op fail with IllegalState and leave the state unchanged; and a
flush callback delivered to a cancelled op (with OK status) appends nothing
to the cache and sets end_of_data. -/
theorem cancellation_behavior (flags : Flags) (st : ReadOpState)
    (hc : st.is_canceled = true) :
    (∀ ev : ReadEvent, (readStep flags st ev).is_canceled = true) ∧
    (∀ o : SessionOutcome,
        Execute flags o st = (Status.illegalState "Operation canceled", st)) ∧
    (∀ (o : SessionOutcome) (res : String),
        GetResult flags o st res = (Status.illegalState "Operation canceled", res, st)) ∧
    (∀ (st2 : ReadOpState) (inc : Status), st2.is_canceled = true → inc.isOk = true →
        (ReceiveResponse st2 inc).result_cache = st2.result_cache ∧
        (ReceiveResponse st2 inc).end_of_data = true) := by
  refine ⟨?_, ?_, ?_, fun st2 inc h2 _ => receiveResponse_canceled st2 inc h2⟩
  · intro ev
    cases ev with
    | execute o =>
        show (Execute flags o st).2.is_canceled = true
        simp [Execute, hc]
    | fetch o =>
        show (GetResult flags o st "").2.2.is_canceled = true
        simp [GetResult, hc]
    | receiveResponse inc data =>
        show (if st.waiting_for_response then _ else st).is_canceled = true
        split
        · rw [receiveResponse_is_canceled]
          exact hc
        · exact hc
    | abortAndWait => rfl
    | setExecParams p => cases p <;> exact hc
  · intro o
    simp [Execute, hc]
  · intro o res
    simp [GetResult, hc]

/-- Witness for C8 at a concrete cancelled state with a request in flight. -/
theorem cancellation_behavior_witness :
    c8st.is_canceled = true ∧
    (readStep flags0 c8st ReadEvent.abortAndWait).is_canceled = true ∧
    Execute flags0 okOutcome c8st = (Status.illegalState "Operation canceled", c8st) ∧
    GetResult flags0 okOutcome c8st "" = (Status.illegalState "Operation canceled", "", c8st) ∧
    (ReceiveResponse c8st Status.ok).result_cache = c8st.result_cache ∧
    (ReceiveResponse c8st Status.ok).end_of_data = true := by
  have h := cancellation_behavior flags0 c8st rfl
  have h4 := h.2.2.2 c8st Status.ok rfl rfl
  exact ⟨rfl, h.1 ReadEvent.abortAndWait, h.2.1 okOutcome, h.2.2.1 okOutcome "", h4.1, h4.2⟩

/-- The generation loop emits at most its fuel in new clones. -/
theorem genOps_length_le (tmpl : ReadReq) (exprs : List (List PgExpr)) (total : Nat) :
    ∀ (n idx : Nat), (genOps tmpl exprs total n idx).1.length ≤ n := by
  intro n
  induction n with
  | zero => intro idx; simp [genOps]
  | succ m ih =>
      intro idx
      by_cases h : idx < total
      · simp only [genOps, if_pos h, List.length_cons]
        exact Nat.succ_le_succ (ih (idx + 1))
      · simp [genOps, h]

/-- One call of InitializeNextOps grows the live list by at most num_ops. -/
theorem initializeNextOps_length_le (st : ReadOpState) (n : Int) :
    (InitializeNextOps st n).read_ops.length ≤ st.read_ops.length + n.toNat := by
  unfold InitializeNextOps
  by_cases hn : n ≤ 0
  · simp [hn]
  · rw [if_neg hn]
    by_cases hp : st.template_req.partition_column_values.length = 0
    · rw [if_pos hp]
      simp only [List.length_append, List.length_singleton]
      omega
    · rw [if_neg hp]
      have h := genOps_length_le st.template_req (effectivePartitionExprs st)
        (radixProd (effectivePartitionExprs st)) n.toNat st.next_op_idx
      simp only [List.length_append]
      omega

/-- A dispatch keeps the live list within the request-limit flag. -/
theorem sendRequest_read_ops_le (flags : Flags) (o : SessionOutcome) (st : ReadOpState)
    (hlim : (st.read_ops.length : Int) ≤ flags.ysql_request_limit) :
    ((SendRequestUnlocked flags o st).2.read_ops.length : Int) ≤ flags.ysql_request_limit := by
  have hbound : (((if (SetRowMark (SetRequestPrefetchLimit flags st)).can_produce_more_ops then
      InitializeNextOps (SetRowMark (SetRequestPrefetchLimit flags st))
        (flags.ysql_request_limit
          - ((SetRowMark (SetRequestPrefetchLimit flags st)).read_ops.length : Int))
      else SetRowMark (SetRequestPrefetchLimit flags st)).read_ops.length : Int))
      ≤ flags.ysql_request_limit := by
    have hlen : (SetRowMark (SetRequestPrefetchLimit flags st)).read_ops.length
        = st.read_ops.length := rfl
    have hlimA : ((SetRowMark (SetRequestPrefetchLimit flags st)).read_ops.length : Int)
        ≤ flags.ysql_request_limit := by
      rw [hlen]; exact hlim
    split
    · have h := initializeNextOps_length_le (SetRowMark (SetRequestPrefetchLimit flags st))
        (flags.ysql_request_limit
          - ((SetRowMark (SetRequestPrefetchLimit flags st)).read_ops.length : Int))
      omega
    · exact hlimA
  simp only [SendRequestUnlocked]
  split
  · exact hbound
  · split
    · exact hbound
    · split
      · exact hbound
      · exact hbound

/-- A conditional dispatch keeps the live list within the limit. -/
theorem sendIfNeeded_read_ops_le (flags : Flags) (o : SessionOutcome) (st : ReadOpState)
    (hlim : (st.read_ops.length : Int) ≤ flags.ysql_request_limit) :
    ((SendRequestIfNeededUnlocked flags o st).2.read_ops.length : Int)
      ≤ flags.ysql_request_limit := by
  unfold SendRequestIfNeededUnlocked
  split
  · exact sendRequest_read_ops_le flags o st hlim
  · exact hlim

/-- Reading the cache front does not touch the live list. -/
theorem readFromCache_read_ops (st : ReadOpState) (res : String) :
    (ReadFromCacheUnlocked st res).2.read_ops = st.read_ops := by
  unfold ReadFromCacheUnlocked
  split <;> rfl

/-- A fetch keeps the live list within the limit. -/
theorem getResult_read_ops_le (flags : Flags) (o : SessionOutcome) (st : ReadOpState)
    (res : String)
    (hlim : (st.read_ops.length : Int) ≤ flags.ysql_request_limit) :
    ((GetResult flags o st res).2.2.read_ops.length : Int) ≤ flags.ysql_request_limit := by
  have h1 := sendIfNeeded_read_ops_le flags o st hlim
  have h2 : ((ReadFromCacheUnlocked (SendRequestIfNeededUnlocked flags o st).2 res).2.read_ops.length
      : Int) ≤ flags.ysql_request_limit := by
    rw [readFromCache_read_ops]
    exact h1
  have h3 := sendIfNeeded_read_ops_le flags o
    (ReadFromCacheUnlocked (SendRequestIfNeededUnlocked flags o st).2 res).2 h2
  simp only [GetResult]
  split
  · exact hlim
  · split
    · exact hlim
    · split
      · exact h1
      · split
        · exact h1
        · split
          · exact h3
          · exact h3

/-- The keep-or-remove loop never grows the live list. -/
theorem processPagingLoop_length_le (ops : List YBPgsqlReadOp) :
    (processPagingLoop ops).length ≤ ops.length := by
  induction ops with
  | nil => exact Nat.le_refl 0
  | cons op rest ih =>
      cases h : op.response.paging_state <;>
        simp [processPagingLoop, h] <;> omega

/-- A callback never grows the live list. -/
theorem receiveResponse_read_ops_le (st : ReadOpState) (inc : Status) :
    (ReceiveResponse st inc).read_ops.length ≤ st.read_ops.length := by
  obtain ⟨ic, wr, ed, hcd, rc, es, ep, nh, tr, ro, pe, ni, cp⟩ := st
  simp only [ReceiveResponse]
  by_cases hok : inc.isOk <;>
    simp only [hok, if_true, if_false, Bool.false_eq_true] <;>
    split <;>
    first
      | exact Nat.le_refl _
      | (split <;>
          first
            | exact Nat.le_refl _
            | (simp only [foldl_writeCache_read_ops]
               exact processPagingLoop_length_le _))

/-- Patching the received responses into the live list keeps its length. -/
theorem patchOps_length (ops : List YBPgsqlReadOp) :
    ∀ data : List (PgsqlResponsePB × String), (patchOps ops data).length = ops.length := by
  induction ops with
  | nil => intro data; cases data <;> rfl
  | cons op rest ih =>
      intro data
      cases data with
      | nil => rfl
      | cons d ds => simp [patchOps, ih ds]

/-- Every event keeps the live list within the request-limit flag. -/
theorem readStep_read_ops_le (flags : Flags) (st : ReadOpState) (ev : ReadEvent)
    (hlim : (st.read_ops.length : Int) ≤ flags.ysql_request_limit) :
    ((readStep flags st ev).read_ops.length : Int) ≤ flags.ysql_request_limit := by
  cases ev with
  | execute o =>
      show ((Execute flags o st).2.read_ops.length : Int) ≤ flags.ysql_request_limit
      unfold Execute
      split
      · exact hlim
      · exact sendRequest_read_ops_le flags o (InitUnlocked st) hlim
  | fetch o => exact getResult_read_ops_le flags o st "" hlim
  | receiveResponse inc data =>
      show (((if st.waiting_for_response then
          ReceiveResponse { st with read_ops := patchOps st.read_ops data } inc
        else st).read_ops.length : Int)) ≤ flags.ysql_request_limit
      split
      · have h1 := receiveResponse_read_ops_le
          { st with read_ops := patchOps st.read_ops data } inc
        have h2 : ({ st with read_ops := patchOps st.read_ops data } :
            ReadOpState).read_ops.length = st.read_ops.length := patchOps_length st.read_ops data
        rw [h2] at h1
        omega
      · exact hlim
  | abortAndWait => exact hlim
  | setExecParams p => cases p <;> exact hlim

/-- C6: starting from a freshly constructed read op, no sequence of events
lets the live sub-request list exceed the request-limit flag; each step
preserves the bound, and one fan-out call emits at most its num_ops
argument (at a dispatch, the request limit minus the live list size). -/
theorem read_ops_bounded_by_request_limit (flags : Flags) (prev : PgExecParameters)
    (numHash : Nat) (tmpl : ReadReq)
    (hlim : 0 ≤ flags.ysql_request_limit) :
    (∀ (st : ReadOpState) (ev : ReadEvent),
        (st.read_ops.length : Int) ≤ flags.ysql_request_limit →
        ((readStep flags st ev).read_ops.length : Int) ≤ flags.ysql_request_limit) ∧
    (∀ evs : List ReadEvent,
        ((runRead flags (initialReadOpState flags prev numHash tmpl) evs).read_ops.length : Int)
          ≤ flags.ysql_request_limit) ∧
    (∀ (st : ReadOpState) (n : Int),
        (InitializeNextOps st n).read_ops.length ≤ st.read_ops.length + n.toNat) := by
  refine ⟨fun st ev h => readStep_read_ops_le flags st ev h, ?_,
    fun st n => initializeNextOps_length_le st n⟩
  have main : ∀ (evs : List ReadEvent) (s : ReadOpState),
      (s.read_ops.length : Int) ≤ flags.ysql_request_limit →
      ((runRead flags s evs).read_ops.length : Int) ≤ flags.ysql_request_limit := by
    intro evs
    induction evs with
    | nil => intro s h; exact h
    | cons ev rest ih =>
        intro s h
        exact ih (readStep flags s ev) (readStep_read_ops_le flags s ev h)
  intro evs
  exact main evs (initialReadOpState flags prev numHash tmpl) (by simpa using hlim)

/-- Witness for C6: the fan-out example dispatched once stays within the
request-limit flag (here 1024); the first dispatch emits exactly the 6
permutations. -/
theorem read_ops_bounded_by_request_limit_witness :
    0 ≤ flags0.ysql_request_limit ∧
    ((runRead flags0 (initialReadOpState flags0 prev0 2 c2tmpl)
        [ReadEvent.execute okOutcome]).read_ops.length : Int) ≤ flags0.ysql_request_limit ∧
    (runRead flags0 (initialReadOpState flags0 prev0 2 c2tmpl)
        [ReadEvent.execute okOutcome]).read_ops.length = 6 := by
  exact ⟨by decide,
    (read_ops_bounded_by_request_limit flags0 prev0 2 c2tmpl (by decide)).2.1
      [ReadEvent.execute okOutcome], by decide⟩

end PgDocOpModel
